import Mathlib

/-!
Verification of the seating-optimization engine (otimizacao_escalas_presenciais).

Shallow embedding of the Python sources:
  * `layout_configuration.py`   — venue layout construction and validation
  * `configuracao_modelo_restricoes.py` — model configuration (scenario list)
  * `execucao_modelo.py`        — venue derivation, feasibility pre-check,
                                  MILP constraint system, solver-status
                                  interpretation, metrics, allocation
                                  extraction and the scenario sweep
Python ints are embedded as `Int` (or `Nat` where the source value is a
count), Python floats produced by exact small-integer arithmetic as `ℚ`,
dicts as association lists in insertion order, and the opaque CBC solver as
an oracle (`SolverOutput`) supplying a status and variable values.
-/

namespace OtimizacaoEscalas

/-! ## layout_configuration.py -/

/-- Attributes stored by `LayoutConfiguration.__init__` (lines 42-44). -/
structure LayoutConfiguration where
  num_corridors : Int
  tables_per_corridor : List Int
  positions_per_table : Int
deriving DecidableEq

/-- `LayoutConfiguration.__init__` (lines 31-44): the validation chain, in
source order; `ValueError` is embedded as `Except.error` with the message. -/
def layoutInit (num_corridors : Int) (tables_per_corridor : List Int)
    (positions_per_table : Int) : Except String LayoutConfiguration :=
  if num_corridors ≤ 0 then
    .error "O número de corredores deve ser um inteiro positivo."
  else if positions_per_table ≤ 0 then
    .error "O número de posições por mesa deve ser um inteiro positivo."
  else if (tables_per_corridor.length : Int) ≠ num_corridors then
    .error "O tamanho de tables_per_corridor deve ser igual a num_corridors."
  else if tables_per_corridor.any (fun num_tables => decide (num_tables ≤ 0)) then
    .error "Cada corredor deve ter ao menos uma mesa."
  else
    .ok ⟨num_corridors, tables_per_corridor, positions_per_table⟩

/-! ## cadastro_times_sinergias.py (the fields the engine reads) -/

/-- A team as the engine reads it: `t.nome` and `t.qtde_integrantes`. -/
structure Team where
  nome : String
  qtde_integrantes : Nat
deriving DecidableEq

/-! ## preferencias_dias.py -/

/-- `DIAS_UTEIS` (line 8). -/
def DIAS_UTEIS : List String := ["Segunda", "Terça", "Quarta", "Quinta", "Sexta"]

/-! ## execucao_modelo.py — venue derivation -/

/-- Python string `<` on the underlying code points (used by `m1 >= m2`
in `_dist_mesas`, Python compares strings lexicographically). -/
def charListLt : List Char → List Char → Bool
  | [], [] => false
  | [], _ :: _ => true
  | _ :: _, [] => false
  | a :: as, b :: bs =>
      if a.toNat < b.toNat then true
      else if b.toNat < a.toNat then false
      else charListLt as bs

/-- Python `a < b` on strings. -/
def pyStrLt (a b : String) : Bool := charListLt a.data b.data

/-- A table as `_lista_mesas` stores it: `mesa_id ↦ (corredor, índice)`. -/
abbrev Mesa := String × String × Nat

/-- `ExecucaoModelo._lista_mesas` (lines 59-65): insertion-ordered dict
`{f"{cor}_M{m}": (cor, m)}` as an association list. -/
def listaMesas (layout : LayoutConfiguration) : List Mesa :=
  (List.range layout.num_corridors.toNat).flatMap fun c0 =>
    let cor := "Corredor " ++ toString (c0 + 1)
    (List.range (layout.tables_per_corridor.getD c0 0).toNat).map fun m0 =>
      (cor ++ "_M" ++ toString (m0 + 1), cor, m0 + 1)

/-- A position as `_lista_posicoes` stores it: `pos_id ↦ (mesa_id, corredor)`. -/
abbrev Posicao := String × String × String

/-- `ExecucaoModelo._lista_posicoes` (lines 67-72). -/
def listaPosicoes (layout : LayoutConfiguration) (mesas : List Mesa) : List Posicao :=
  mesas.flatMap fun m =>
    (List.range layout.positions_per_table.toNat).map fun p0 =>
      (m.1 ++ "_P" ++ toString (p0 + 1), m.1, m.2.1)

/-- The value expression of `_dist_mesas` line 80 once `m1 ≠ m2` is known:
same corridor → `abs(idx1 - idx2)`, else `5 + abs(idx1 - idx2)`. -/
def distFormula (c1 : String) (i1 : Nat) (c2 : String) (i2 : Nat) : Nat :=
  if c1 = c2 then ((i1 : Int) - (i2 : Int)).natAbs
  else 5 + ((i1 : Int) - (i2 : Int)).natAbs

/-- `ExecucaoModelo._dist_mesas` (lines 74-81): pairs with `m1 >= m2` are
skipped, so only string-ordered pairs are keyed; the `0 if m1 == m2`
branch of line 80 is kept although it is unreachable past the guard. -/
def distMesas (mesas : List Mesa) : List ((String × String) × Nat) :=
  mesas.flatMap fun m1 =>
    mesas.filterMap fun m2 =>
      if pyStrLt m1.1 m2.1 then
        some ((m1.1, m2.1),
          if m1.1 = m2.1 then 0
          else distFormula m1.2.1 m1.2.2 m2.2.1 m2.2.2)
      else none

/-- Dict access `dist[(a, b)]`, `None` standing for a `KeyError`. -/
def distLookup (dist : List ((String × String) × Nat)) (a b : String) : Option Nat :=
  (dist.find? fun e => decide (e.1.1 = a) && decide (e.1.2 = b)).map (·.2)

/-! ## execucao_modelo.py — scenario data, constraint system -/

/-- The read-only inputs of `ExecucaoModelo`: the layout, the team list
(`list(self.cad_times.times.values())`, line 90), and the configuration
fields the engine reads (`folga_minima`, `peso_distancia`,
`dias_obrigatorios_range`). -/
structure DadosExecucao where
  layout : LayoutConfiguration
  times : List Team
  folga_minima : Int
  peso_distancia : ℚ
  dias_range : List Int
deriving DecidableEq

/-- `self.mesas` (line 40). -/
def mesasOf (data : DadosExecucao) : List Mesa := listaMesas data.layout

/-- `self.posicoes` (line 41). -/
def posicoesOf (data : DadosExecucao) : List Posicao :=
  listaPosicoes data.layout (mesasOf data)

/-- `self.dist` (line 42). -/
def distOf (data : DadosExecucao) : List ((String × String) × Nat) :=
  distMesas (mesasOf data)

/-- `self.cap_total = len(self.posicoes)` (line 43). -/
def capTotal (data : DadosExecucao) : Nat := (posicoesOf data).length

/-- The keys iterated by `for p in self.posicoes`. -/
def posKeys (data : DadosExecucao) : List String := (posicoesOf data).map (·.1)

/-- The keys iterated by `for m in self.mesas`. -/
def mesaKeys (data : DadosExecucao) : List String := (mesasOf data).map (·.1)

/-- `sum(t.qtde_integrantes for t in self.cad_times.times.values())`
(line 54). -/
def pessoasTotal (data : DadosExecucao) : Nat :=
  (data.times.map (·.qtde_integrantes)).sum

/-- `ExecucaoModelo._upper_bound_feasible` (lines 48-56):
`pessoas * dias_obrig / len(DIAS_UTEIS) <= cap_total - folga_minima`,
with Python's exact small-integer float arithmetic embedded in `ℚ`. -/
def upperBoundFeasible (data : DadosExecucao) (dias_obrig : Int) : Bool :=
  decide ((pessoasTotal data : ℚ) * (dias_obrig : ℚ) / (DIAS_UTEIS.length : ℚ)
    ≤ (capTotal data : ℚ) - (data.folga_minima : ℚ))

/-- One candidate valuation of the binary decision variables of
`_solve_for_k` (lines 94-101): `x[t, p, d]`, `y[t, m, d]`,
`z[t, m1, m2, d]`, `pres[t, d]`, all indexed by the string keys. -/
structure Atribuicao where
  x : String → String → String → Bool
  y : String → String → String → Bool
  z : String → String → String → String → Bool
  pres : String → String → Bool

/-- Numeric value of a binary variable. -/
def b2i (b : Bool) : Int := if b then 1 else 0

/-- `pl.lpSum(x[t.nome, p, d] for p in pos_mesa)` for the positions of one
table (`pos_mesa = [p for p, (mm, _) in self.posicoes.items() if mm == m]`,
line 121). -/
def sumXMesa (data : DadosExecucao) (a : Atribuicao) (t m d : String) : Int :=
  (((posicoesOf data).filter (fun p => decide (p.2.1 = m))).map
    (fun p => b2i (a.x t p.1 d))).sum

/-- `pl.lpSum(x[t.nome, p, d] for p in self.posicoes)` (lines 134, 140). -/
def sumXDia (data : DadosExecucao) (a : Atribuicao) (t d : String) : Int :=
  ((posKeys data).map (fun p => b2i (a.x t p d))).sum

/-- Constraint family of lines 115-117: at most one team per seat per day. -/
def consExclusividade (data : DadosExecucao) (a : Atribuicao) : Bool :=
  (posKeys data).all fun p => DIAS_UTEIS.all fun d =>
    decide ((data.times.map (fun t => b2i (a.x t.nome p d))).sum ≤ 1)

/-- Constraint family of lines 119-125: per-table occupancy bounded by
`cap * y`, and each seat assignment implies its table's `y`. -/
def consMesaY (data : DadosExecucao) (a : Atribuicao) : Bool :=
  data.times.all fun t => (mesaKeys data).all fun m => DIAS_UTEIS.all fun d =>
    decide (sumXMesa data a t.nome m d
        ≤ data.layout.positions_per_table * b2i (a.y t.nome m d)) &&
    (((posicoesOf data).filter (fun p => decide (p.2.1 = m))).all fun p =>
      decide (b2i (a.x t.nome p.1 d) ≤ b2i (a.y t.nome m d)))

/-- Constraint family of lines 127-130: split indicator lower bound
`z >= y1 + y2 - 1` over every key pair of `self.dist`. -/
def consSplit (data : DadosExecucao) (a : Atribuicao) : Bool :=
  data.times.all fun t => (distOf data).all fun e => DIAS_UTEIS.all fun d =>
    decide (b2i (a.y t.nome e.1.1 d) + b2i (a.y t.nome e.1.2 d) - 1
      ≤ b2i (a.z t.nome e.1.1 e.1.2 d))

/-- Constraint family of lines 132-134: all-or-nothing daily attendance,
`Σ_p x[t,p,d] == qtde_integrantes * pres[t,d]`. -/
def consTudoOuNada (data : DadosExecucao) (a : Atribuicao) : Bool :=
  data.times.all fun t => DIAS_UTEIS.all fun d =>
    decide (sumXDia data a t.nome d
      = (t.qtde_integrantes : Int) * b2i (a.pres t.nome d))

/-- Constraint family of lines 136-137: exact required-days count,
`Σ_d pres[t,d] == dias_obrig`. -/
def consDiasExatos (data : DadosExecucao) (dias_obrig : Int) (a : Atribuicao) : Bool :=
  data.times.all fun t =>
    decide ((DIAS_UTEIS.map (fun d => b2i (a.pres t.nome d))).sum = dias_obrig)

/-- Constraint family of lines 139-140: daily global slack,
`Σ_{t,p} x <= cap_total - folga_minima`. -/
def consFolgaDiaria (data : DadosExecucao) (a : Atribuicao) : Bool :=
  DIAS_UTEIS.all fun d =>
    decide ((data.times.map (fun t => sumXDia data a t.nome d)).sum
      ≤ (capTotal data : Int) - data.folga_minima)

/-- The full constraint system of `_solve_for_k` (lines 113-140). -/
def checkRestricoes (data : DadosExecucao) (dias_obrig : Int) (a : Atribuicao) : Bool :=
  consExclusividade data a && consMesaY data a && consSplit data a &&
  consTudoOuNada data a && consDiasExatos data dias_obrig a &&
  consFolgaDiaria data a

/-! ## execucao_modelo.py — solver boundary and status interpretation -/

/-- The CBC status codes the engine distinguishes: `VIABLE_STATI = {Optimal}`,
`INFEASIBLE_STATI = {Infeasible, Unbounded, Undefined}`,
`MAYBE_STATI = {NotSolved}` (lines 10-15). -/
inductive SolverStatus where
  | Optimal
  | NotSolved
  | Infeasible
  | Unbounded
  | Undefined
deriving DecidableEq

/-- PuLP's `LpStatus` string table, read at line 147. -/
def lpStatusStr : SolverStatus → String
  | .Optimal => "Optimal"
  | .NotSolved => "Not Solved"
  | .Infeasible => "Infeasible"
  | .Unbounded => "Unbounded"
  | .Undefined => "Undefined"

/-- The opaque solver's result for one scenario: its status code and the
value (`var.value()`, `None` when unassigned) of every decision variable. -/
structure SolverOutput where
  status : SolverStatus
  xval : String → String → String → Option ℚ
  yval : String → String → String → Option ℚ
  zval : String → String → String → String → Option ℚ
  presval : String → String → Option ℚ

/-- The key list of the dict `x` (line 94-95): insertion order
`for t in times for p in self.posicoes for d in dias`. -/
def xKeys (data : DadosExecucao) : List (String × String × String) :=
  data.times.flatMap fun t => (posKeys data).flatMap fun p =>
    DIAS_UTEIS.map fun d => (t.nome, p, d)

/-- Key list of the dict `y` (lines 96-97). -/
def yKeys (data : DadosExecucao) : List (String × String × String) :=
  data.times.flatMap fun t => (mesaKeys data).flatMap fun m =>
    DIAS_UTEIS.map fun d => (t.nome, m, d)

/-- Key list of the dict `z` (lines 98-99). -/
def zKeys (data : DadosExecucao) : List (String × String × String × String) :=
  data.times.flatMap fun t => (distOf data).flatMap fun e =>
    DIAS_UTEIS.map fun d => (t.nome, e.1.1, e.1.2, d)

/-- Key list of the dict `pres` (lines 100-101). -/
def presKeys (data : DadosExecucao) : List (String × String) :=
  data.times.flatMap fun t => DIAS_UTEIS.map fun d => (t.nome, d)

/-- `any(v.value() is not None for v in prob.variables())` (line 156):
the model's variables are exactly the `x`, `y`, `z`, `pres` entries. -/
def anyValueAssigned (data : DadosExecucao) (out : SolverOutput) : Bool :=
  (xKeys data).any (fun k => (out.xval k.1 k.2.1 k.2.2).isSome) ||
  (yKeys data).any (fun k => (out.yval k.1 k.2.1 k.2.2).isSome) ||
  (zKeys data).any (fun k => (out.zval k.1 k.2.1 k.2.2.1 k.2.2.2).isSome) ||
  (presKeys data).any (fun k => (out.presval k.1 k.2).isSome)

/-- The dict `x` after the solve, as `executar` receives it in
`res["x_vars"]`: each key of `x` paired with its solved value. -/
def xEntries (data : DadosExecucao) (out : SolverOutput) :
    List ((String × String × String) × Option ℚ) :=
  (xKeys data).map fun k => (k, out.xval k.1 k.2.1 k.2.2)

/-- `ocup_total = sum(var.value() for var in x.values())` (line 163). -/
def ocupTotal (data : DadosExecucao) (out : SolverOutput) : ℚ :=
  ((xEntries data out).map (fun e => e.2.getD 0)).sum

/-- Python's banker's rounding of an exact rational to the nearest integer
(ties to even), the behavior of `round` on our exact values. -/
def bankersRound (q : ℚ) : Int :=
  let f : Int := ⌊q⌋
  if q - (f : ℚ) < 1 / 2 then f
  else if (1 : ℚ) / 2 < q - (f : ℚ) then f + 1
  else if Even f then f else f + 1

/-- `round(·, 3)` (line 169) on an exact rational. -/
def round3 (q : ℚ) : ℚ := (bankersRound (q * 1000) : ℚ) / 1000

/-- The per-scenario outcome dict of `_solve_for_k`: `EarlyInfeasible`
(line 88), a bare rejection `{"status": status}` (lines 151, 159), or the
metrics dict of lines 166-173 (status, `ocup_total`, `taxa_semanal`,
`x_vars`; the wall-clock `tempo_execucao` is not modelled). -/
inductive ScenarioResult where
  | earlyInfeasible
  | rejeitado (status : String)
  | aceito (status : String) (ocup_total taxa_semanal : ℚ)
      (x_vars : List ((String × String × String) × Option ℚ))
deriving DecidableEq

/-- `res["status"]` of the result dict. -/
def ScenarioResult.statusStr : ScenarioResult → String
  | .earlyInfeasible => "EarlyInfeasible"
  | .rejeitado status => status
  | .aceito status _ _ _ => status

/-- `res["ocup_total"]` (0 when the dict lacks the key). -/
def ScenarioResult.ocupOf : ScenarioResult → ℚ
  | .aceito _ ocup _ _ => ocup
  | _ => 0

/-- `res["taxa_semanal"]` (0 when the dict lacks the key). -/
def ScenarioResult.taxaOf : ScenarioResult → ℚ
  | .aceito _ _ taxa _ => taxa
  | _ => 0

/-- `res["x_vars"]` ( `[]` when the dict lacks the key). -/
def ScenarioResult.xentOf : ScenarioResult →
    List ((String × String × String) × Option ℚ)
  | .aceito _ _ _ xe => xe
  | _ => []

/-- `res.get("status") in {"Optimal", "Feasible"}` — the acceptance test of
`executar` (line 185). -/
def ScenarioResult.aceitoStr (r : ScenarioResult) : Bool :=
  (r.statusStr == "Optimal") || (r.statusStr == "Feasible")

/-- The metrics dict built at lines 161-173 for a status that is kept. -/
def resultadoAceito (data : DadosExecucao) (out : SolverOutput)
    (status : String) : ScenarioResult :=
  .aceito status (ocupTotal data out)
    (round3 (ocupTotal data out /
      ((DIAS_UTEIS.length : ℚ) * (capTotal data : ℚ))))
    (xEntries data out)

/-- Lines 147-173 of `_solve_for_k`: the status interpretation after the
solver has been invoked. -/
def interpretaStatus (data : DadosExecucao) (out : SolverOutput) : ScenarioResult :=
  let status := lpStatusStr out.status
  if out.status = .Infeasible ∨ out.status = .Unbounded ∨ out.status = .Undefined then
    .rejeitado status
  else if out.status = .NotSolved then
    if anyValueAssigned data out then resultadoAceito data out "Feasible"
    else .rejeitado status
  else
    resultadoAceito data out status

/-- `ExecucaoModelo._solve_for_k` (lines 86-173) with the opaque solver as
an oracle: the pre-check of lines 87-88 early-returns before any model is
built or the solver consulted. -/
def solveForK (data : DadosExecucao) (dias_obrig : Int)
    (out : SolverOutput) : ScenarioResult :=
  if ¬ upperBoundFeasible data dias_obrig then .earlyInfeasible
  else interpretaStatus data out

/-! ## execucao_modelo.py — allocation extraction and the sweep -/

/-- One `mesa_dict` of the readable allocation (lines 209-213):
`{"mesa": ..., "corredor": ..., "posicoes": [team, ...]}`. -/
structure MesaAloc where
  mesa : Nat
  corredor : String
  posicoes : List String
deriving DecidableEq

/-- The nested allocation for one scenario: insertion-ordered dict
`chave ↦ [mesa_dict, ...]`. -/
abbrev Alocacao := List (String × List MesaAloc)

/-- `int(mesa_id.split("_M")[1])` (line 201). -/
def mesaNum (mesa_id : String) : Nat :=
  (((mesa_id.splitOn "_M").getD 1 "").toNat?).getD 0

/-- `self.posicoes[pos]` (line 199): the `(mesa_id, corredor)` of a
position key. -/
def posLookup (posicoes : List Posicao) (pos : String) : String × String :=
  ((posicoes.find? fun p => decide (p.1 = pos)).map (·.2)).getD ("", "")

/-- The search-and-append of lines 204-216: find the `mesa_dict` with this
table number in the chave's list (appending a fresh one at the end when
absent) and append the team to its `posicoes`. -/
def addMesaAloc (ms : List MesaAloc) (mesa_num : Nat) (corredor team : String) :
    List MesaAloc :=
  match ms with
  | [] => [⟨mesa_num, corredor, [team]⟩]
  | m :: rest =>
      if m.mesa = mesa_num then ⟨m.mesa, m.corredor, m.posicoes ++ [team]⟩ :: rest
      else m :: addMesaAloc rest mesa_num corredor team

/-- `aloc.setdefault(chave, [])` followed by the mutation of the chave's
list, on an insertion-ordered association list. -/
def updateChave (aloc : Alocacao) (chave : String) (mesa_num : Nat)
    (corredor team : String) : Alocacao :=
  match aloc with
  | [] => [(chave, addMesaAloc [] mesa_num corredor team)]
  | (c, ms) :: rest =>
      if c = chave then (c, addMesaAloc ms mesa_num corredor team) :: rest
      else (c, ms) :: updateChave rest chave mesa_num corredor team

/-- One iteration of the extraction loop (lines 194-216) for the entry
`((team, pos, dia), var)`: entries whose value is not 1 are skipped. -/
def passoAloc (posicoes : List Posicao) (k : Int) (aloc : Alocacao)
    (e : (String × String × String) × Option ℚ) : Alocacao :=
  if e.2 ≠ some 1 then aloc
  else
    let team := e.1.1
    let dia := e.1.2.2
    let mc := posLookup posicoes e.1.2.1
    let chave := toString k ++ "d | " ++ dia ++ " · " ++ mc.2
    updateChave aloc chave (mesaNum mc.1) mc.2 team

/-- The readable-allocation extraction of `executar` (lines 192-217),
a left fold of `passoAloc` over the solved `x_vars` entries. -/
def extrairAlocacao (posicoes : List Posicao) (k : Int)
    (entries : List ((String × String × String) × Option ℚ)) : Alocacao :=
  entries.foldl (passoAloc posicoes k) []

/-- The dict returned by `executar` on success (lines 225-232); the raw
`model_dict` is not modelled (the engine only stores the solved model
opaquely). -/
structure ResultadoExecucao where
  cenarios : List (Int × ℚ × ℚ)
  alocacoes : List (Int × Alocacao)
  vars_dict : List (Int × List ((String × String × String) × Option ℚ))
  inviaveis : List (Int × String)
  mensagem : String
deriving DecidableEq

/-- The accumulation loop of `executar` (lines 182-220) over the scenario
values, in iteration order: viable metrics, allocations, variable maps and
the rejected statuses. -/
def executarLoop (data : DadosExecucao) (oracle : Int → SolverOutput) :
    List Int →
      List (Int × ℚ × ℚ) × List (Int × Alocacao) ×
      List (Int × List ((String × String × String) × Option ℚ)) ×
      List (Int × String)
  | [] => ([], [], [], [])
  | k :: rest =>
      let res := solveForK data k (oracle k)
      let acc := executarLoop data oracle rest
      if res.aceitoStr then
        ((k, res.ocupOf, res.taxaOf) :: acc.1,
         (k, extrairAlocacao (posicoesOf data) k res.xentOf) :: acc.2.1,
         (k, res.xentOf) :: acc.2.2.1,
         acc.2.2.2)
      else
        (acc.1, acc.2.1, acc.2.2.1, (k, res.statusStr) :: acc.2.2.2)

/-- `ExecucaoModelo.executar` (lines 178-232): the sweep over
`self.cfg.dias_obrigatorios_range`; the `RuntimeError` of line 223 is
embedded as `Except.error` with its message. -/
def executar (data : DadosExecucao) (oracle : Int → SolverOutput) :
    Except String ResultadoExecucao :=
  let acc := executarLoop data oracle data.dias_range
  if acc.1 = [] then
    .error "Todos os cenários foram classificados como inviáveis."
  else
    .ok ⟨acc.1, acc.2.1, acc.2.2.1, acc.2.2.2, "Processo concluído."⟩

/-! ## configuracao_modelo_restricoes.py -/

/-- The effective scenario list before sorting (lines 47-48): `None` or an
empty list is replaced by the default `[2]`. -/
def listaEfetiva (inp : Option (List Int)) : List Int :=
  match inp with
  | none => [2]
  | some l => if l.length = 0 then [2] else l

/-- `sorted(set(dias_obrigatorios_range))` (line 55): the distinct values in
ascending order. -/
def sortedSet (l : List Int) : List Int :=
  l.dedup.insertionSort (· ≤ ·)

/-- The `dias_obrigatorios_range` attribute stored by
`ConfiguracaoModelo.__init__` (lines 47-55). -/
def diasObrigatoriosRange (inp : Option (List Int)) : List Int :=
  sortedSet (listaEfetiva inp)

/-! ## Concrete instances used to instantiate the theorems -/

/-- Spec §8 Scenario A: 1 corridor, 2 tables of 4 positions (capacity 8),
teams Alpha and Beta of size 3, zero slack, zero distance weight, k = 2. -/
def dadosA : DadosExecucao :=
  ⟨⟨1, [2], 4⟩, [⟨"Alpha", 3⟩, ⟨"Beta", 3⟩], 0, 0, [2]⟩

/-- A concrete feasible valuation for Scenario A: Alpha fills positions 1-3
of table 1 and Beta positions 1-3 of table 2, on Monday and Tuesday. -/
def asgA : Atribuicao where
  x := fun t p d =>
    ((t == "Alpha") && ((d == "Segunda") || (d == "Terça")) &&
      ((p == "Corredor 1_M1_P1") || (p == "Corredor 1_M1_P2") ||
       (p == "Corredor 1_M1_P3"))) ||
    ((t == "Beta") && ((d == "Segunda") || (d == "Terça")) &&
      ((p == "Corredor 1_M2_P1") || (p == "Corredor 1_M2_P2") ||
       (p == "Corredor 1_M2_P3")))
  y := fun t m d =>
    ((t == "Alpha") && (m == "Corredor 1_M1") &&
      ((d == "Segunda") || (d == "Terça"))) ||
    ((t == "Beta") && (m == "Corredor 1_M2") &&
      ((d == "Segunda") || (d == "Terça")))
  z := fun _ _ _ _ => false
  pres := fun t d =>
    ((t == "Alpha") || (t == "Beta")) && ((d == "Segunda") || (d == "Terça"))

/-- A solver output reporting Optimal with exactly the values of `asgA`. -/
def outA : SolverOutput where
  status := .Optimal
  xval := fun t p d => some ((b2i (asgA.x t p d) : ℚ))
  yval := fun t m d => some ((b2i (asgA.y t m d) : ℚ))
  zval := fun t m1 m2 d => some ((b2i (asgA.z t m1 m2 d) : ℚ))
  presval := fun t d => some ((b2i (asgA.pres t d) : ℚ))

/-- A minimal venue (1 corridor, 1 table, 2 positions) with one team of 1. -/
def dadosW : DadosExecucao := ⟨⟨1, [1], 2⟩, [⟨"T", 1⟩], 0, 0, [1]⟩

/-- A venue whose single team of 100 cannot fit (capacity 2): every
scenario fails the average-demand pre-check. -/
def dadosPesado : DadosExecucao := ⟨⟨1, [1], 2⟩, [⟨"G", 100⟩], 0, 0, [1, 5]⟩

/-- 1 corridor, 1 table of 3 positions, one team of 1: the venue of the
rounding counterexample (occupancy 1 of 15 seat-days). -/
def dadosR : DadosExecucao := ⟨⟨1, [1], 3⟩, [⟨"T", 1⟩], 0, 0, [1]⟩

/-- An Optimal solver output for `dadosR` occupying exactly one seat-day. -/
def outR : SolverOutput where
  status := .Optimal
  xval := fun t p d =>
    some ((b2i ((t == "T") && (p == "Corredor 1_M1_P1") && (d == "Segunda")) : ℚ))
  yval := fun _ _ _ => some 0
  zval := fun _ _ _ _ => some 0
  presval := fun _ _ => some 0

/-- A solver output with every variable valued (status Optimal). -/
def outOptimal : SolverOutput :=
  ⟨.Optimal, fun _ _ _ => some 0, fun _ _ _ => some 0,
    fun _ _ _ _ => some 0, fun _ _ => some 0⟩

/-- A solver output that stopped without any incumbent: status NotSolved,
no variable carries a value. -/
def outSemValor : SolverOutput :=
  ⟨.NotSolved, fun _ _ _ => none, fun _ _ _ => none,
    fun _ _ _ _ => none, fun _ _ => none⟩

/-- An oracle answering every scenario with `outOptimal`. -/
def oracleOptimal : Int → SolverOutput := fun _ => outOptimal

/-! ## Helper lemmas -/

/-- The exact-rational pre-check comparison, restated over `Int` (both
sides of `pessoas * k / 5 ≤ cap - folga` multiplied by the positive 5). -/
theorem upperBound_int (data : DadosExecucao) (k : Int) :
    upperBoundFeasible data k =
      decide ((pessoasTotal data : Int) * k ≤
        ((capTotal data : Int) - data.folga_minima) * (DIAS_UTEIS.length : Int)) := by
  unfold upperBoundFeasible
  rw [decide_eq_decide]
  rw [div_le_iff₀ (by norm_num [DIAS_UTEIS] : (0 : ℚ) < (DIAS_UTEIS.length : ℚ))]
  constructor
  · intro h; exact_mod_cast h
  · intro h; exact_mod_cast h

theorem sum_map_flatMap {α β : Type} (l : List α) (f : α → List β) (g : β → Int) :
    ((l.flatMap f).map g).sum = (l.map fun a => ((f a).map g).sum).sum := by
  induction l with
  | nil => rfl
  | cons a as ih => simp [List.map_append, List.sum_append, ih]

theorem sum_map_swap {α β : Type} (l1 : List α) (l2 : List β) (f : α → β → Int) :
    (l1.map fun a => (l2.map (f a)).sum).sum =
      (l2.map fun b => (l1.map fun a => f a b).sum).sum := by
  induction l1 with
  | nil => simp
  | cons a as ih =>
      simp only [List.map_cons, List.sum_cons, ih, ← List.sum_map_add]

theorem charListLt_irrefl (l : List Char) : charListLt l l = false := by
  induction l with
  | nil => rfl
  | cons a as ih => simp [charListLt, ih]

theorem charListLt_asymm : ∀ l1 l2 : List Char,
    charListLt l1 l2 = true → charListLt l2 l1 = false
  | [], [], h => by simp [charListLt] at h
  | [], _ :: _, _ => by simp [charListLt]
  | _ :: _, [], h => by simp [charListLt] at h
  | a :: as, b :: bs, h => by
      simp only [charListLt] at h ⊢
      by_cases h1 : a.toNat < b.toNat
      · have h2 : ¬ b.toNat < a.toNat := by omega
        simp [h1, h2]
      · by_cases h2 : b.toNat < a.toNat
        · simp [h1, h2] at h
        · simp only [h1, h2, if_false] at h ⊢
          exact charListLt_asymm as bs h

theorem pyStrLt_irrefl (s : String) : pyStrLt s s = false :=
  charListLt_irrefl s.data

theorem pyStrLt_asymm {a b : String} (h : pyStrLt a b = true) : pyStrLt b a = false :=
  charListLt_asymm a.data b.data h

theorem pyStrLt_ne {a b : String} (h : pyStrLt a b = true) : a ≠ b := by
  intro heq
  rw [heq, pyStrLt_irrefl] at h
  exact Bool.false_ne_true h

/-- The post-pre-check interpreter never produces the early marker. -/
theorem interpretaStatus_ne_early (data : DadosExecucao) (out : SolverOutput) :
    interpretaStatus data out ≠ .earlyInfeasible := by
  unfold interpretaStatus
  split_ifs <;> simp [resultadoAceito]

/-- The sweep's viable map is empty iff no scenario passes the
status-string acceptance test. -/
theorem executarLoop_viaveis_nil (data : DadosExecucao)
    (oracle : Int → SolverOutput) (ks : List Int) :
    (executarLoop data oracle ks).1 = [] ↔
      ∀ k ∈ ks, (solveForK data k (oracle k)).aceitoStr = false := by
  induction ks with
  | nil => simp [executarLoop]
  | cons k rest ih =>
      simp only [executarLoop]
      by_cases h : (solveForK data k (oracle k)).aceitoStr
      · simp [h]
      · simp only [Bool.not_eq_true] at h
        simp [h, ih]

/-- Folding the extraction step ignores every entry whose value is not 1. -/
theorem foldl_passoAloc_filter (posicoes : List Posicao) (k : Int) :
    ∀ (entries : List ((String × String × String) × Option ℚ)) (aloc : Alocacao),
      entries.foldl (passoAloc posicoes k) aloc =
        (entries.filter fun e => decide (e.2 = some 1)).foldl
          (passoAloc posicoes k) aloc := by
  intro entries
  induction entries with
  | nil => intro aloc; rfl
  | cons e rest ih =>
      intro aloc
      by_cases h : e.2 = some 1
      · simp [List.filter_cons, h, ih]
      · have hskip : passoAloc posicoes k aloc e = aloc := by
          unfold passoAloc
          rw [if_pos h]
        simp [List.filter_cons, h, hskip, ih]

/-- Prop form of the all-or-nothing constraint family (lines 132-134). -/
theorem consTudoOuNada_spec (data : DadosExecucao) (a : Atribuicao)
    (h : consTudoOuNada data a = true) :
    ∀ t ∈ data.times, ∀ d ∈ DIAS_UTEIS,
      sumXDia data a t.nome d = (t.qtde_integrantes : Int) * b2i (a.pres t.nome d) := by
  intro t ht d hd
  rw [consTudoOuNada, List.all_eq_true] at h
  have h2 := h t ht
  rw [List.all_eq_true] at h2
  exact of_decide_eq_true (h2 d hd)

/-- Prop form of the exact-required-days constraint family (lines 136-137). -/
theorem consDiasExatos_spec (data : DadosExecucao) (k : Int) (a : Atribuicao)
    (h : consDiasExatos data k a = true) :
    ∀ t ∈ data.times,
      (DIAS_UTEIS.map fun d => b2i (a.pres t.nome d)).sum = k := by
  intro t ht
  rw [consDiasExatos, List.all_eq_true] at h
  exact of_decide_eq_true (h t ht)

/-- Under constraint families 4 and 5, the total seat-day occupancy over
all teams, positions and days is (Σ team sizes) · k. -/
theorem sumX_total (data : DadosExecucao) (k : Int) (a : Atribuicao)
    (h4 : consTudoOuNada data a = true) (h5 : consDiasExatos data k a = true) :
    ((xKeys data).map fun key => b2i (a.x key.1 key.2.1 key.2.2)).sum =
      (pessoasTotal data : Int) * k := by
  have h4s := consTudoOuNada_spec data a h4
  have h5s := consDiasExatos_spec data k a h5
  unfold xKeys
  rw [sum_map_flatMap]
  have hteam : ∀ t ∈ data.times,
      (((posKeys data).flatMap fun p => DIAS_UTEIS.map fun d => (t.nome, p, d)).map
        (fun key => b2i (a.x key.1 key.2.1 key.2.2))).sum
        = (t.qtde_integrantes : Int) * k := by
    intro t ht
    rw [sum_map_flatMap]
    have hinner : ∀ p ∈ posKeys data,
        ((DIAS_UTEIS.map fun d => (t.nome, p, d)).map
          (fun key => b2i (a.x key.1 key.2.1 key.2.2))).sum
          = (DIAS_UTEIS.map fun d => b2i (a.x t.nome p d)).sum := by
      intro p _
      rw [List.map_map]
      rfl
    rw [List.map_congr_left hinner, sum_map_swap]
    have hday : ∀ d ∈ DIAS_UTEIS,
        ((posKeys data).map fun p => b2i (a.x t.nome p d)).sum
          = (t.qtde_integrantes : Int) * b2i (a.pres t.nome d) :=
      fun d hd => h4s t ht d hd
    rw [List.map_congr_left hday, List.sum_map_mul_left, h5s t ht]
  rw [List.map_congr_left hteam, List.sum_map_mul_right]
  congr 1
  unfold pessoasTotal
  rw [Nat.cast_list_sum, List.map_map]
  rfl

theorem sum_map_intCast {α : Type} (l : List α) (f : α → Int) :
    (l.map fun a => ((f a : Int) : ℚ)).sum = (((l.map f).sum : Int) : ℚ) := by
  rw [Int.cast_list_sum, List.map_map]
  rfl

/-- When the oracle's `x` values are the rational images of a Boolean
assignment, the occupancy metric is the cast of an integer seat count. -/
theorem ocupTotal_cast (data : DadosExecucao) (out : SolverOutput)
    (f : String → String → String → Bool)
    (h : ∀ t p d, out.xval t p d = some ((b2i (f t p d) : ℚ))) :
    ocupTotal data out =
      ((((xKeys data).map fun key => b2i (f key.1 key.2.1 key.2.2)).sum : Int) : ℚ) := by
  unfold ocupTotal xEntries
  rw [List.map_map]
  have hpt : ∀ key ∈ xKeys data,
      ((fun e => Option.getD e.2 0) ∘
        (fun key' : String × String × String =>
          (key', out.xval key'.1 key'.2.1 key'.2.2))) key
        = ((b2i (f key.1 key.2.1 key.2.2) : Int) : ℚ) := by
    intro key _
    simp [Function.comp, h key.1 key.2.1 key.2.2]
  rw [List.map_congr_left hpt, sum_map_intCast]

/-- Combining the two: a constraint-satisfying oracle yields occupancy
(Σ team sizes) · k. -/
theorem ocupTotal_eq (data : DadosExecucao) (out : SolverOutput)
    (a : Atribuicao) (k : Int)
    (hm : ∀ t p d, out.xval t p d = some ((b2i (a.x t p d) : ℚ)))
    (h4 : consTudoOuNada data a = true) (h5 : consDiasExatos data k a = true) :
    ocupTotal data out = (((pessoasTotal data : Int) * k : Int) : ℚ) := by
  rw [ocupTotal_cast data out a.x hm, sumX_total data k a h4 h5]

/-- Every key pair stored by `_dist_mesas` is strictly string-ordered. -/
theorem distMesas_key_lt (ms : List Mesa) :
    ∀ e ∈ distMesas ms, pyStrLt e.1.1 e.1.2 = true := by
  intro e he
  unfold distMesas at he
  rw [List.mem_flatMap] at he
  obtain ⟨m1, _, he2⟩ := he
  rw [List.mem_filterMap] at he2
  obtain ⟨m2, _, heq⟩ := he2
  by_cases hlt : pyStrLt m1.1 m2.1
  · rw [if_pos hlt, Option.some.injEq] at heq
    subst heq
    exact hlt
  · rw [if_neg hlt] at heq
    cases heq

/-- Every stored entry carries the corridor/index formula of line 80 for
two tables of the list. -/
theorem distMesas_sound (ms : List Mesa) :
    ∀ e ∈ distMesas ms, ∃ m1 ∈ ms, ∃ m2 ∈ ms,
      e.1.1 = m1.1 ∧ e.1.2 = m2.1 ∧
      e.2 = distFormula m1.2.1 m1.2.2 m2.2.1 m2.2.2 := by
  intro e he
  unfold distMesas at he
  rw [List.mem_flatMap] at he
  obtain ⟨m1, hm1, he2⟩ := he
  rw [List.mem_filterMap] at he2
  obtain ⟨m2, hm2, heq⟩ := he2
  by_cases hlt : pyStrLt m1.1 m2.1
  · rw [if_pos hlt, if_neg (pyStrLt_ne hlt), Option.some.injEq] at heq
    subst heq
    exact ⟨m1, hm1, m2, hm2, rfl, rfl, rfl⟩
  · rw [if_neg hlt] at heq
    cases heq

/-- Every string-ordered pair of listed tables is stored with the formula
value. -/
theorem distMesas_complete (ms : List Mesa) :
    ∀ m1 ∈ ms, ∀ m2 ∈ ms, pyStrLt m1.1 m2.1 = true →
      ((m1.1, m2.1), distFormula m1.2.1 m1.2.2 m2.2.1 m2.2.2) ∈ distMesas ms := by
  intro m1 hm1 m2 hm2 hlt
  unfold distMesas
  rw [List.mem_flatMap]
  refine ⟨m1, hm1, ?_⟩
  rw [List.mem_filterMap]
  refine ⟨m2, hm2, ?_⟩
  rw [if_pos hlt, if_neg (pyStrLt_ne hlt)]

/-- No self-pair is ever stored by `_dist_mesas`. -/
theorem distLookup_self (ms : List Mesa) (a : String) :
    distLookup (distMesas ms) a a = none := by
  unfold distLookup
  have hfind : (distMesas ms).find?
      (fun e => decide (e.1.1 = a) && decide (e.1.2 = a)) = none := by
    rw [List.find?_eq_none]
    intro e he hp
    rw [Bool.and_eq_true, decide_eq_true_eq, decide_eq_true_eq] at hp
    have hlt := distMesas_key_lt ms e he
    rw [hp.1, hp.2, pyStrLt_irrefl] at hlt
    exact Bool.false_ne_true hlt
  rw [hfind]
  rfl

/-- No reversed pair is ever stored by `_dist_mesas`. -/
theorem distLookup_swap_none (ms : List Mesa) :
    ∀ e ∈ distMesas ms, distLookup (distMesas ms) e.1.2 e.1.1 = none := by
  intro e he
  have hlt := distMesas_key_lt ms e he
  unfold distLookup
  have hfind : (distMesas ms).find?
      (fun e' => decide (e'.1.1 = e.1.2) && decide (e'.1.2 = e.1.1)) = none := by
    rw [List.find?_eq_none]
    intro e' he' hp
    rw [Bool.and_eq_true, decide_eq_true_eq, decide_eq_true_eq] at hp
    have hlt' := distMesas_key_lt ms e' he'
    rw [hp.1, hp.2, pyStrLt_asymm hlt] at hlt'
    exact Bool.false_ne_true hlt'
  rw [hfind]
  rfl

/-! ## The claims -/

/-- C6 counterexample, claim as stated false on the code: for the venue
with 1 corridor and 2 tables, the distance dict built by `_dist_mesas` has
no self entry (so it is not zero on self: the lookup fails) and no entry
for the reversed pair (so it is not symmetric as a key-value map). -/
theorem C6_contraexemplo :
    distLookup (distMesas (listaMesas ⟨1, [2], 4⟩))
      "Corredor 1_M1" "Corredor 1_M1" ≠ some 0 ∧
    distLookup (distMesas (listaMesas ⟨1, [2], 4⟩))
      "Corredor 1_M2" "Corredor 1_M1" ≠
    distLookup (distMesas (listaMesas ⟨1, [2], 4⟩))
      "Corredor 1_M1" "Corredor 1_M2" := by
  decide

/-- C6 (amended): the distance dict built once per venue stores exactly
the string-ordered pairs of distinct tables — no self pair and no reversed
pair is keyed — and every stored value follows line 80's formula (absolute
within-corridor index difference, plus 5 across corridors), a formula that
is symmetric in the two tables. -/
theorem C6_distancia_mesas (ms : List Mesa) :
    (∀ e ∈ distMesas ms, pyStrLt e.1.1 e.1.2 = true ∧
       ∃ m1 ∈ ms, ∃ m2 ∈ ms, e.1.1 = m1.1 ∧ e.1.2 = m2.1 ∧
         e.2 = distFormula m1.2.1 m1.2.2 m2.2.1 m2.2.2) ∧
    (∀ m1 ∈ ms, ∀ m2 ∈ ms, pyStrLt m1.1 m2.1 = true →
       ((m1.1, m2.1), distFormula m1.2.1 m1.2.2 m2.2.1 m2.2.2) ∈ distMesas ms) ∧
    (∀ c1 i1 c2 i2, distFormula c1 i1 c2 i2 = distFormula c2 i2 c1 i1) ∧
    (∀ a, distLookup (distMesas ms) a a = none) ∧
    (∀ e ∈ distMesas ms, distLookup (distMesas ms) e.1.2 e.1.1 = none) := by
  refine ⟨?_, distMesas_complete ms, ?_, distLookup_self ms, distLookup_swap_none ms⟩
  · intro e he
    exact ⟨distMesas_key_lt ms e he, distMesas_sound ms e he⟩
  · intro c1 i1 c2 i2
    unfold distFormula
    by_cases hc : c1 = c2
    · rw [if_pos hc, if_pos hc.symm]
      omega
    · rw [if_neg hc, if_neg (Ne.symm hc)]
      omega

/-- C8: allocation extraction is deterministic and idempotent — it is a
pure fold over the solved variable entries (re-running it on the same
entries is the same function application), and its result depends only on
the entries whose solved value is exactly 1, every other entry being
skipped by line 195's `continue`. -/
theorem C8_extracao_idempotente (posicoes : List Posicao) (k : Int)
    (entries : List ((String × String × String) × Option ℚ)) :
    extrairAlocacao posicoes k entries = extrairAlocacao posicoes k entries ∧
    extrairAlocacao posicoes k entries =
      extrairAlocacao posicoes k (entries.filter fun e => decide (e.2 = some 1)) :=
  ⟨rfl, foldl_passoAloc_filter posicoes k entries []⟩

/-- C9: `LayoutConfiguration.__init__` raises exactly on the invalid
inputs (non-positive corridor count, non-positive positions per table,
table-count list length differing from the corridor count, or a
non-positive per-corridor table count) and on valid inputs stores the
three inputs unchanged. -/
theorem C9_validacao_layout (nc : Int) (tpc : List Int) (ppt : Int) :
    ((∃ msg, layoutInit nc tpc ppt = .error msg) ↔
      (nc ≤ 0 ∨ ppt ≤ 0 ∨ (tpc.length : Int) ≠ nc ∨ ∃ x ∈ tpc, x ≤ 0)) ∧
    (¬(nc ≤ 0 ∨ ppt ≤ 0 ∨ (tpc.length : Int) ≠ nc ∨ ∃ x ∈ tpc, x ≤ 0) →
      layoutInit nc tpc ppt = .ok ⟨nc, tpc, ppt⟩) := by
  have hok : ¬(nc ≤ 0 ∨ ppt ≤ 0 ∨ (tpc.length : Int) ≠ nc ∨ ∃ x ∈ tpc, x ≤ 0) →
      layoutInit nc tpc ppt = .ok ⟨nc, tpc, ppt⟩ := by
    intro hno
    push_neg at hno
    obtain ⟨h1, h2, h3, h4⟩ := hno
    have hany : tpc.any (fun num_tables => decide (num_tables ≤ 0)) = false := by
      rw [List.any_eq_false]
      intro x hx
      simp only [decide_eq_true_eq]
      exact not_le.mpr (h4 x hx)
    unfold layoutInit
    rw [if_neg (not_le.mpr h1), if_neg (not_le.mpr h2), if_neg (by rw [h3]; simp),
      if_neg (by rw [hany]; exact Bool.false_ne_true)]
  refine ⟨⟨?_, ?_⟩, hok⟩
  · rintro ⟨msg, hmsg⟩
    by_contra hno
    rw [hok hno] at hmsg
    cases hmsg
  · intro hcond
    unfold layoutInit
    by_cases h1 : nc ≤ 0
    · exact ⟨_, by rw [if_pos h1]⟩
    by_cases h2 : ppt ≤ 0
    · exact ⟨_, by rw [if_neg h1, if_pos h2]⟩
    by_cases h3 : (tpc.length : Int) ≠ nc
    · exact ⟨_, by rw [if_neg h1, if_neg h2, if_pos h3]⟩
    have h4 : ∃ x ∈ tpc, x ≤ 0 := by
      rcases hcond with h | h | h | h
      · exact absurd h h1
      · exact absurd h h2
      · exact absurd h h3
      · exact h
    have hany : tpc.any (fun num_tables => decide (num_tables ≤ 0)) = true := by
      rw [List.any_eq_true]
      obtain ⟨x, hx, hle⟩ := h4
      exact ⟨x, hx, decide_eq_true hle⟩
    exact ⟨_, by rw [if_neg h1, if_neg h2, if_neg h3, if_pos (by rw [hany])]⟩

/-- C10: the stored scenario list `dias_obrigatorios_range` is always
non-empty, ascending and duplicate-free; a `None` or empty configured list
silently becomes the default `[2]`, and otherwise the stored list holds
exactly the configured values (their sorted deduplication). -/
theorem C10_cenarios_configurados (inp : Option (List Int)) :
    diasObrigatoriosRange inp ≠ [] ∧
    (diasObrigatoriosRange inp).Sorted (· ≤ ·) ∧
    (diasObrigatoriosRange inp).Nodup ∧
    ((inp = none ∨ inp = some []) → diasObrigatoriosRange inp = [2]) ∧
    (∀ x, x ∈ diasObrigatoriosRange inp ↔ x ∈ listaEfetiva inp) := by
  refine ⟨?_, List.sorted_insertionSort _ _, ?_, ?_, ?_⟩
  · have hne : listaEfetiva inp ≠ [] := by
      unfold listaEfetiva
      cases inp with
      | none => simp
      | some l => cases l <;> simp
    intro hcontra
    unfold diasObrigatoriosRange sortedSet at hcontra
    have hperm := List.perm_insertionSort (· ≤ ·) (listaEfetiva inp).dedup
    rw [hcontra] at hperm
    exact hne ((List.dedup_eq_nil _).mp hperm.nil_eq.symm)
  · exact (List.perm_insertionSort _ _).nodup_iff.mpr (List.nodup_dedup _)
  · rintro (h | h) <;> subst h <;> decide
  · intro x
    unfold diasObrigatoriosRange sortedSet
    rw [(List.perm_insertionSort _ _).mem_iff, List.mem_dedup]

/-- C1: once the pre-check passes, the solve-status interpretation is
three-way — Optimal is Accepted with status "Optimal"; Infeasible,
Unbounded and Undefined are Rejected with the status string verbatim;
NotSolved is Accepted (downgraded to "Feasible") exactly when some
decision variable carries a concrete value, else Rejected as
"Not Solved". (Accepted/Rejected is `executar`'s test, `aceitoStr`.) -/
theorem C1_interpretacao_status (data : DadosExecucao) (k : Int)
    (out : SolverOutput) (h : upperBoundFeasible data k = true) :
    ((out.status = .Infeasible ∨ out.status = .Unbounded ∨ out.status = .Undefined) →
       solveForK data k out = .rejeitado (lpStatusStr out.status) ∧
       (solveForK data k out).aceitoStr = false) ∧
    (out.status = .Optimal →
       solveForK data k out = resultadoAceito data out "Optimal" ∧
       (solveForK data k out).aceitoStr = true) ∧
    (out.status = .NotSolved →
       (anyValueAssigned data out = true →
          solveForK data k out = resultadoAceito data out "Feasible" ∧
          (solveForK data k out).aceitoStr = true) ∧
       (anyValueAssigned data out = false →
          solveForK data k out = .rejeitado "Not Solved" ∧
          (solveForK data k out).aceitoStr = false)) := by
  have hsolve : solveForK data k out = interpretaStatus data out := by
    unfold solveForK
    rw [if_neg (by simp [h])]
  refine ⟨?_, ?_, ?_⟩
  · intro hst
    have hr : interpretaStatus data out = .rejeitado (lpStatusStr out.status) := by
      unfold interpretaStatus
      rw [if_pos hst]
    rw [hsolve, hr]
    refine ⟨rfl, ?_⟩
    rcases hst with hst | hst | hst <;> rw [hst] <;> rfl
  · intro hst
    have hr : interpretaStatus data out = resultadoAceito data out "Optimal" := by
      unfold interpretaStatus
      rw [if_neg (by simp [hst]), if_neg (by simp [hst]), hst]
      rfl
    rw [hsolve, hr]
    exact ⟨rfl, rfl⟩
  · intro hst
    constructor
    · intro hval
      have hr : interpretaStatus data out = resultadoAceito data out "Feasible" := by
        unfold interpretaStatus
        rw [if_neg (by simp [hst]), if_pos hst, if_pos hval]
      rw [hsolve, hr]
      exact ⟨rfl, rfl⟩
    · intro hval
      have hr : interpretaStatus data out = .rejeitado "Not Solved" := by
        unfold interpretaStatus
        rw [if_neg (by simp [hst]), if_pos hst, if_neg (by simp [hval]), hst]
        rfl
      rw [hsolve, hr]
      exact ⟨rfl, rfl⟩

/-- C1 witness: on a tiny passing venue, an Optimal solver output is
accepted with status "Optimal". -/
theorem C1_testemunha :
    solveForK dadosW 1 outOptimal = resultadoAceito dadosW outOptimal "Optimal" ∧
    (solveForK dadosW 1 outOptimal).aceitoStr = true :=
  (C1_interpretacao_status dadosW 1 outOptimal
    (by rw [upperBound_int]; decide)).2.1 rfl

/-- C2: a scenario is Early-Rejected (the `EarlyInfeasible` marker, with
no model built and regardless of the solver oracle) exactly when the
average daily demand `Σ sizes · k / 5` strictly exceeds the effective
capacity `cap_total − folga_minima`; otherwise `_solve_for_k` proceeds to
interpret the solver's result. -/
theorem C2_prefiltro (data : DadosExecucao) (k : Int) (out : SolverOutput) :
    (solveForK data k out = .earlyInfeasible ↔
      (capTotal data : ℚ) - (data.folga_minima : ℚ) <
        (pessoasTotal data : ℚ) * (k : ℚ) / (DIAS_UTEIS.length : ℚ)) ∧
    ScenarioResult.statusStr .earlyInfeasible = "EarlyInfeasible" ∧
    (solveForK data k out ≠ .earlyInfeasible →
      solveForK data k out = interpretaStatus data out) := by
  refine ⟨?_, rfl, ?_⟩
  · unfold solveForK
    by_cases hub : upperBoundFeasible data k = true
    · rw [if_neg (by simp [hub])]
      constructor
      · intro hc
        exact absurd hc (interpretaStatus_ne_early data out)
      · intro hlt
        unfold upperBoundFeasible at hub
        rw [decide_eq_true_eq] at hub
        exact absurd hub (not_le.mpr hlt)
    · rw [Bool.not_eq_true] at hub
      rw [if_pos (by simp [hub])]
      refine ⟨fun _ => ?_, fun _ => rfl⟩
      unfold upperBoundFeasible at hub
      exact not_le.mp (of_decide_eq_false hub)
  · intro hne
    unfold solveForK at hne ⊢
    by_cases hub : ¬ upperBoundFeasible data k
    · rw [if_pos hub] at hne
      exact absurd rfl hne
    · rw [if_neg hub]

/-- C3: the sweep raises its terminal error exactly when no configured
scenario passes the acceptance test, and a normal return carries at least
one accepted scenario (`cenarios` non-empty). -/
theorem C3_varredura (data : DadosExecucao) (oracle : Int → SolverOutput) :
    ((∃ msg, executar data oracle = .error msg) ↔
      ∀ k ∈ data.dias_range, (solveForK data k (oracle k)).aceitoStr = false) ∧
    (∀ r, executar data oracle = .ok r →
      r.cenarios ≠ [] ∧
      ∃ k ∈ data.dias_range, (solveForK data k (oracle k)).aceitoStr = true) := by
  constructor
  · constructor
    · rintro ⟨msg, hmsg⟩
      simp only [executar] at hmsg
      by_cases hv : (executarLoop data oracle data.dias_range).1 = []
      · exact (executarLoop_viaveis_nil data oracle data.dias_range).mp hv
      · rw [if_neg hv] at hmsg
        cases hmsg
    · intro hall
      refine ⟨"Todos os cenários foram classificados como inviáveis.", ?_⟩
      simp only [executar]
      rw [if_pos ((executarLoop_viaveis_nil data oracle data.dias_range).mpr hall)]
  · intro r hr
    simp only [executar] at hr
    by_cases hv : (executarLoop data oracle data.dias_range).1 = []
    · rw [if_pos hv] at hr
      cases hr
    · rw [if_neg hv] at hr
      injection hr with hr2
      constructor
      · rw [← hr2]
        exact hv
      · by_contra hno
        push_neg at hno
        refine hv ((executarLoop_viaveis_nil data oracle data.dias_range).mpr ?_)
        intro k hk
        have := hno k hk
        revert this
        cases (solveForK data k (oracle k)).aceitoStr <;> simp

/-- C4: in every valuation satisfying the formulated constraint system,
each team's occupied-seat total on each working day equals exactly its
size times its binary presence indicator — hence it is 0 or the full team
size, never partial. -/
theorem C4_tudo_ou_nada (data : DadosExecucao) (k : Int) (a : Atribuicao)
    (h : checkRestricoes data k a = true) :
    ∀ t ∈ data.times, ∀ d ∈ DIAS_UTEIS,
      sumXDia data a t.nome d =
        (t.qtde_integrantes : Int) * b2i (a.pres t.nome d) ∧
      (sumXDia data a t.nome d = 0 ∨
        sumXDia data a t.nome d = (t.qtde_integrantes : Int)) := by
  intro t ht d hd
  unfold checkRestricoes at h
  simp only [Bool.and_eq_true] at h
  have heq := consTudoOuNada_spec data a h.1.1.2 t ht d hd
  refine ⟨heq, ?_⟩
  cases hp : a.pres t.nome d
  · left
    rw [heq, hp]
    simp [b2i]
  · right
    rw [heq, hp]
    simp [b2i]

/-- C4 witness: the Scenario A valuation, team Alpha, Monday. -/
theorem C4_testemunha :
    sumXDia dadosA asgA "Alpha" "Segunda" =
      (3 : Int) * b2i (asgA.pres "Alpha" "Segunda") ∧
    (sumXDia dadosA asgA "Alpha" "Segunda" = 0 ∨
      sumXDia dadosA asgA "Alpha" "Segunda" = (3 : Int)) :=
  C4_tudo_ou_nada dadosA 2 asgA (by decide) ⟨"Alpha", 3⟩ (by decide)
    "Segunda" (by decide)

/-- C5: in every valuation satisfying the formulated constraint system of
the scenario with required-days value k, each team's presence indicators
over the five working days sum to exactly k. -/
theorem C5_dias_exatos (data : DadosExecucao) (k : Int) (a : Atribuicao)
    (h : checkRestricoes data k a = true) :
    ∀ t ∈ data.times,
      (DIAS_UTEIS.map fun d => b2i (a.pres t.nome d)).sum = k := by
  intro t ht
  unfold checkRestricoes at h
  simp only [Bool.and_eq_true] at h
  exact consDiasExatos_spec data k a h.1.2 t ht

/-- C5 witness: the Scenario A valuation, team Beta, k = 2. -/
theorem C5_testemunha :
    (DIAS_UTEIS.map fun d => b2i (asgA.pres "Beta" d)).sum = 2 :=
  C5_dias_exatos dadosA 2 asgA (by decide) ⟨"Beta", 3⟩ (by decide)

/-- C7 (amended: the reported rate is the quotient *rounded to three
decimals*, `round(·, 3)` at line 169): the accepted metrics are the sum of
all `x` values and the rounded weekly rate, and Scenario A — capacity 8,
teams Alpha and Beta of size 3, k = 2, zero slack, zero weight — is
accepted under a correct Optimal oracle with occupancy 12 and rate
(3+3)·2/(5·8) = 0.3 exactly. -/
theorem C7_metricas_cenarioA (a : Atribuicao) (out : SolverOutput)
    (h1 : checkRestricoes dadosA 2 a = true)
    (h2 : ∀ t p d, out.xval t p d = some ((b2i (a.x t p d) : ℚ)))
    (h3 : out.status = .Optimal) :
    (∀ (data' : DadosExecucao) (out' : SolverOutput) (st : String),
        (resultadoAceito data' out' st).ocupOf = ocupTotal data' out' ∧
        (resultadoAceito data' out' st).taxaOf =
          round3 (ocupTotal data' out' /
            ((DIAS_UTEIS.length : ℚ) * (capTotal data' : ℚ)))) ∧
    checkRestricoes dadosA 2 asgA = true ∧
    solveForK dadosA 2 out = .aceito "Optimal" 12 (3 / 10) (xEntries dadosA out) := by
  refine ⟨fun data' out' st => ⟨rfl, rfl⟩, by decide, ?_⟩
  have hub : upperBoundFeasible dadosA 2 = true := by
    rw [upperBound_int]
    decide
  have hres : solveForK dadosA 2 out = resultadoAceito dadosA out "Optimal" := by
    unfold solveForK
    rw [if_neg (by simp [hub])]
    unfold interpretaStatus
    rw [if_neg (by simp [h3]), if_neg (by simp [h3]), h3]
    rfl
  rw [hres]
  unfold resultadoAceito
  unfold checkRestricoes at h1
  simp only [Bool.and_eq_true] at h1
  have hocup : ocupTotal dadosA out = 12 := by
    rw [ocupTotal_eq dadosA out a 2 h2 h1.1.1.2 h1.1.2]
    rw [show pessoasTotal dadosA = 6 from by decide]
    norm_num
  have hcap : capTotal dadosA = 8 := by decide
  have hlen : (DIAS_UTEIS.length : ℚ) = 5 := by norm_num [DIAS_UTEIS]
  rw [hocup, hcap, hlen]
  rw [show round3 ((12 : ℚ) / ((5 : ℚ) * ((8 : ℕ) : ℚ))) = 3 / 10 from ?_]
  have hfl : ⌊(12 : ℚ) / ((5 : ℚ) * ((8 : ℕ) : ℚ)) * 1000⌋ = 300 := by
    rw [Int.floor_eq_iff]
    norm_num
  unfold round3 bankersRound
  rw [hfl]
  norm_num

/-- C7 witness: the concrete Scenario A valuation and its Optimal oracle. -/
theorem C7_testemunha :
    (∀ (data' : DadosExecucao) (out' : SolverOutput) (st : String),
        (resultadoAceito data' out' st).ocupOf = ocupTotal data' out' ∧
        (resultadoAceito data' out' st).taxaOf =
          round3 (ocupTotal data' out' /
            ((DIAS_UTEIS.length : ℚ) * (capTotal data' : ℚ)))) ∧
    checkRestricoes dadosA 2 asgA = true ∧
    solveForK dadosA 2 outA = .aceito "Optimal" 12 (3 / 10) (xEntries dadosA outA) :=
  C7_metricas_cenarioA asgA outA (by decide) (fun t p d => rfl) rfl

/-- C7 counterexample, claim as stated false on the code: an accepted
scenario (1 corridor, 1 table of 3 seats, occupancy 1) whose reported
weekly rate is the rounded 67/1000, not the exact quotient 1/15 the claim
asserts. -/
theorem C7_contraexemplo :
    (solveForK dadosR 1 outR).aceitoStr = true ∧
    (solveForK dadosR 1 outR).taxaOf ≠
      (solveForK dadosR 1 outR).ocupOf /
        ((DIAS_UTEIS.length : ℚ) * (capTotal dadosR : ℚ)) := by
  have hub : upperBoundFeasible dadosR 1 = true := by
    rw [upperBound_int]
    decide
  have hres : solveForK dadosR 1 outR = resultadoAceito dadosR outR "Optimal" := by
    unfold solveForK
    rw [if_neg (by simp [hub])]
    rfl
  have hocup : ocupTotal dadosR outR = 1 := by
    have h1 := ocupTotal_cast dadosR outR
      (fun t p d => (t == "T") && (p == "Corredor 1_M1_P1") && (d == "Segunda"))
      (fun t p d => rfl)
    rw [h1]
    norm_cast
  have hcap : capTotal dadosR = 3 := by decide
  have hlen : (DIAS_UTEIS.length : ℚ) = 5 := by norm_num [DIAS_UTEIS]
  rw [hres]
  unfold resultadoAceito
  refine ⟨rfl, ?_⟩
  show round3 (ocupTotal dadosR outR /
      ((DIAS_UTEIS.length : ℚ) * (capTotal dadosR : ℚ))) ≠
    ocupTotal dadosR outR / ((DIAS_UTEIS.length : ℚ) * (capTotal dadosR : ℚ))
  rw [hocup, hcap, hlen]
  have hfl : ⌊(1 : ℚ) / ((5 : ℚ) * ((3 : ℕ) : ℚ)) * 1000⌋ = 66 := by
    rw [Int.floor_eq_iff]
    norm_num
  unfold round3 bankersRound
  rw [hfl]
  norm_num

end OtimizacaoEscalas
